import Mathlib

/-!
Shallow embedding of TrafficTracker (src/main.rs), a daemon enforcing a
rolling-window bandwidth quota.  The Rust program runs three loops (interval
saver, limit resetter, quota checker) over one mutex-guarded `Meta` record.
We embed the pure decision logic of each loop body as Lean functions:
  * byte counts (Rust `BigUint`) become `Nat`; the Rust `Meta` stores
    `starting_bytes` / `last_saved_bytes` as decimal strings that are parsed
    with `BigUint::from_str` at every use — we model the numeric values
    directly;
  * `u64` timestamp arithmetic wraps, so where the code adds into a `u64`
    we reduce modulo 2^64 explicitly;
  * fallible operations (`BigUint` subtraction, which panics on underflow;
    string parsing, which panics via `.unwrap()`) return `Option`;
  * the external shaping command on one interface is modelled by its
    outcome, an `Except` value, since the loop only inspects success/failure.
-/

namespace TrafficTracker

/-- The `Config` struct (main.rs lines 172-182): all fields are `u64`. -/
structure Config where
  save_interval_ms : Nat
  check_interval_ms : Nat
  save_every_n_bytes : Nat
  capture_timeframe_ms : Nat
  max_bytes : Nat
  lower_limit_bytes : Nat
  burst_buffer_size : Nat
  buffer_latency_ms : Nat
deriving Repr, DecidableEq

/-- The checkpoint struct `Meta` (main.rs lines 211-216).  In Rust,
`reset_at_ms` is a `u64` and the two byte counts are decimal `String`
encodings of `BigUint` values; we carry the numeric values. -/
structure Meta where
  reset_at_ms : Nat
  starting_bytes : Nat
  last_saved_bytes : Nat
deriving Repr, DecidableEq

/-- Wrap-around bound of `u64`. -/
def U64_MOD : Nat := 2 ^ 64

/-- Addition into a `u64`, as in `current_time_millis() as u64 + reset_delay`
(main.rs line 64): wraps modulo 2^64. -/
def u64add (a b : Nat) : Nat := (a + b) % U64_MOD

/-- Rust `BigUint` subtraction `a - b` (main.rs lines 58-59): panics when
`b > a`, so the result is `none` there. -/
def biguintSub (a b : Nat) : Option Nat :=
  if b ≤ a then some (a - b) else none

/-- One decimal digit of `BigUint::from_str`. -/
def parseDigit (c : Char) : Option Nat :=
  if c.isDigit then some (c.toNat - 48) else none

/-- Rust `BigUint::from_str` on the strings this program feeds it: succeeds on a
non-empty all-digit string with the encoded value, fails otherwise (the Rust
caller then panics through `.unwrap()`). -/
def biguintFromStr (s : String) : Option Nat :=
  if s.isEmpty then none
  else
    s.toList.foldl
      (fun acc c =>
        match acc, parseDigit c with
        | some n, some d => some (n * 10 + d)
        | _, _ => none)
      (some 0)

/-- The per-interface slice `&raw[0..(raw.len() - 1)]` of
`fetch_outbound_bytes` (main.rs line 166): the last character is dropped
unconditionally, whatever it is. -/
def dropLastChar (s : String) : String :=
  String.mk s.toList.dropLast

/-- The reader `fetch_outbound_bytes` (main.rs lines 157-170) on the list of raw
per-interface counter strings (the contents of each
`/sys/class/net/<if>/statistics/tx_bytes`): for each interface it drops the
final character of the raw string, parses the rest as a `BigUint` (panicking
on failure, hence `Option`), and sums. -/
def fetch_outbound_bytes (raws : List String) : Option Nat :=
  raws.foldl
    (fun acc raw =>
      match acc, biguintFromStr (dropLastChar raw) with
      | some s, some v => some (s + v)
      | _, _ => none)
    (some 0)

/-- Modelled from the spec: the spec's `CounterReader.read_total()` strips
trailing whitespace of each raw counter string before parsing, "rather than
unconditionally dropping a fixed number of characters".  This second
definition follows the spec's words and exists only to be compared with
`fetch_outbound_bytes`, the definition taken from the source. -/
def read_total_specModel (raws : List String) : Option Nat :=
  raws.foldl
    (fun acc raw =>
      match acc, biguintFromStr (String.mk
          ((raw.toList.reverse.dropWhile Char.isWhitespace).reverse)) with
      | some s, some v => some (s + v)
      | _, _ => none)
    (some 0)

/-- The clamped distance of the quota-check loop (main.rs lines 73-77):
`if curr_bytes > starting { curr_bytes - starting } else { 0 }`. -/
def dist_of (starting curr : Nat) : Nat :=
  if starting < curr then curr - starting else 0

/-- What one quota-check iteration (main.rs lines 69-101) of the main loop
does, besides sleeping: the computed `dist`, the checkpoint written out of
cadence (if any), whether `enable_lower_bandwidth` was invoked (after which
the loop sleeps until `reset_at_ms` before re-checking), and the in-memory
checkpoint as the iteration leaves it. -/
structure QuotaIter where
  dist : Nat
  persisted : Option Meta
  applied : Bool
  metaAfter : Meta
deriving Repr, DecidableEq

/-- One iteration of the quota-check loop (main.rs lines 69-101), given the
shared checkpoint `m` under the lock and the fresh counter reading `curr`
taken before the lock:
  * `dist = if curr > starting { curr - starting } else { 0 }`;
  * if `dist >= save_every_n_bytes`, a fresh `Meta` with
    `last_saved_bytes = curr` (and the old `reset_at_ms`, `starting_bytes`)
    is stored to disk;
  * if `dist > max_bytes`, `enable_lower_bandwidth` is invoked and the loop
    then sleeps until `reset_at_ms`;
  * the in-memory checkpoint is never written through the guard. -/
def quotaCheckIter (c : Config) (m : Meta) (curr : Nat) : QuotaIter :=
  let dist := dist_of m.starting_bytes curr
  { dist := dist
    persisted :=
      if c.save_every_n_bytes ≤ dist then
        some { reset_at_ms := m.reset_at_ms
               starting_bytes := m.starting_bytes
               last_saved_bytes := curr }
      else none
    applied := decide (c.max_bytes < dist)
    metaAfter := m }

/-- Number of `enable_lower_bandwidth` calls the quota-check loop makes over
a sequence of counter readings taken within one window (so `m` is the
checkpoint throughout: the reset loop has not fired, and by `quotaCheckIter`
the loop itself never mutates it).  After a reading whose iteration applies
the throttle, the loop sleeps until `reset_at_ms` (main.rs lines 92-96), so
the remaining readings of the window are never examined. -/
def appliesInWindow (c : Config) (m : Meta) : List Nat → Nat
  | [] => 0
  | r :: rs =>
    if (quotaCheckIter c m r).applied then 1 else appliesInWindow c m rs

/-- Observable side effects of a loop body, in order. -/
inductive Event where
  | throttleRelease : Event
  | persist : Meta → Event
deriving Repr, DecidableEq

/-- One firing of the limit-resetter loop body after its sleep (main.rs
lines 57-65): `dist` is the unclamped `BigUint` subtraction
`last_saved_bytes - starting_bytes` (panic — `none` — on underflow); if
`dist > max_bytes`, `disable_lowered_bandwidth` runs first; then the
checkpoint is rebaselined (`starting_bytes := fresh` counter reading,
`reset_at_ms := now + capture_timeframe_ms` as `u64`) and stored.  Returns
the new in-memory checkpoint and the ordered effects. -/
def resetIter (c : Config) (m : Meta) (fresh now : Nat) :
    Option (Meta × List Event) :=
  match biguintSub m.last_saved_bytes m.starting_bytes with
  | none => none
  | some dist =>
    let m' : Meta :=
      { reset_at_ms := u64add now c.capture_timeframe_ms
        starting_bytes := fresh
        last_saved_bytes := m.last_saved_bytes }
    some (m', (if c.max_bytes < dist then [Event.throttleRelease] else [])
              ++ [Event.persist m'])

/-- The startup recovery block (main.rs lines 19-27): load the checkpoint,
take a fresh counter reading; if the persisted `starting_bytes` exceeds the
fresh reading, rebaseline `starting_bytes` to it and store immediately.
Returns the checkpoint handed to the loops and whether a store happened. -/
def startupRecover (m : Meta) (fresh : Nat) : Meta × Bool :=
  if fresh < m.starting_bytes then
    ({ reset_at_ms := m.reset_at_ms
       starting_bytes := fresh
       last_saved_bytes := m.last_saved_bytes }, true)
  else (m, false)

/-- Rust `Duration::from_days(d).as_millis()` (main.rs line 234). -/
def durationFromDaysMs (d : Nat) : Nat := d * 24 * 60 * 60 * 1000

/-- The absent-file branch of `Meta::load` (main.rs lines 231-241): one
fresh counter reading seeds both byte fields, and `reset_at_ms` is set to
`Duration::from_days(7).as_millis() as u64` — a constant offset from the
epoch, taking neither the current time nor `capture_timeframe_ms` as
input — before the record is written to disk and returned. -/
def metaLoadAbsent (fresh : Nat) : Meta :=
  { reset_at_ms := durationFromDaysMs 7
    starting_bytes := fresh
    last_saved_bytes := fresh }

/-- Outcome of the external `sudo tc` invocation on one interface, as the
shaping loops observe it (main.rs lines 108-129 and 138-152): `spawn()` can
fail before a child exists — the `.unwrap()` on it then panics; a spawned
command's `wait()` returns either `Ok` with the child's exit status (`Ok`
even when `tc` exits non-zero, so the `if let Err` arm does not fire) or an
I/O error, the only case the `if let Err` arm catches. -/
inductive CmdOutcome where
  | spawnFailed : String → CmdOutcome
  | exited : Nat → CmdOutcome
  | waitFailed : String → CmdOutcome
deriving Repr, DecidableEq

/-- What a run of one shaping loop did: the interfaces whose `tc`
invocation was reached, in order; the per-interface log lines emitted (the
banner printed before the loop is not modelled); and whether the run died
in a `spawn().unwrap()` panic, which unwinds the enclosing thread before
the remaining interfaces are reached. -/
structure ShapingRun where
  processed : List String
  logs : List String
  panicked : Bool
deriving Repr, DecidableEq

/-- The loop of `enable_lower_bandwidth` (main.rs lines 104-132) over the
interfaces of `/sys/class/net`, each paired with the outcome of its
`tc qdisc add` invocation: a spawn failure panics through the `.unwrap()`
at line 125, aborting the loop there; `wait()` returning an exit status —
zero or non-zero alike — matches no `Err`, so the loop moves on silently;
only a `wait()` I/O error is logged before moving on. -/
def enable_lower_bandwidth : List (String × CmdOutcome) → ShapingRun
  | [] => { processed := [], logs := [], panicked := false }
  | (iface, CmdOutcome.spawnFailed _) :: _ =>
    { processed := [iface], logs := [], panicked := true }
  | (iface, CmdOutcome.exited _) :: rest =>
    let t := enable_lower_bandwidth rest
    { processed := iface :: t.processed, logs := t.logs, panicked := t.panicked }
  | (iface, CmdOutcome.waitFailed err) :: rest =>
    let t := enable_lower_bandwidth rest
    { processed := iface :: t.processed
      logs := ("Error applying restriction: " ++ err) :: t.logs
      panicked := t.panicked }

/-- The loop of `disable_lowered_bandwidth` (main.rs lines 134-155),
analogously over the outcomes of the per-interface `tc qdisc del`
invocations, with the `spawn().unwrap()` panic at line 148. -/
def disable_lowered_bandwidth : List (String × CmdOutcome) → ShapingRun
  | [] => { processed := [], logs := [], panicked := false }
  | (iface, CmdOutcome.spawnFailed _) :: _ =>
    { processed := [iface], logs := [], panicked := true }
  | (iface, CmdOutcome.exited _) :: rest =>
    let t := disable_lowered_bandwidth rest
    { processed := iface :: t.processed, logs := t.logs, panicked := t.panicked }
  | (iface, CmdOutcome.waitFailed err) :: rest =>
    let t := disable_lowered_bandwidth rest
    { processed := iface :: t.processed
      logs := ("Error loosening restriction: " ++ err) :: t.logs
      panicked := t.panicked }

/-- The log line (if any) that `enable_lower_bandwidth` emits for one
interface's outcome: only a `wait()` I/O error produces one. -/
def enableLogOf (p : String × CmdOutcome) : Option String :=
  match p.2 with
  | CmdOutcome.waitFailed err => some ("Error applying restriction: " ++ err)
  | _ => none

/-- The log line (if any) that `disable_lowered_bandwidth` emits for one
interface's outcome. -/
def disableLogOf (p : String × CmdOutcome) : Option String :=
  match p.2 with
  | CmdOutcome.waitFailed err => some ("Error loosening restriction: " ++ err)
  | _ => none

/-- A concrete `Config` for witnesses: the defaults of `Config::load`
(main.rs lines 194-203) with `max_bytes := 100` and
`save_every_n_bytes := 64` as in the spec's worked examples. -/
def cfgEx : Config :=
  { save_interval_ms := 60000
    check_interval_ms := 10000
    save_every_n_bytes := 64
    capture_timeframe_ms := 604800000
    max_bytes := 100
    lower_limit_bytes := 65536
    burst_buffer_size := 4096
    buffer_latency_ms := 50 }

/-! ## Helper lemmas -/

lemma enable_no_spawn_run (outs : List (String × CmdOutcome))
    (h : ∀ p ∈ outs, ∀ e, p.2 ≠ CmdOutcome.spawnFailed e) :
    (enable_lower_bandwidth outs).processed = outs.map Prod.fst
    ∧ (enable_lower_bandwidth outs).panicked = false
    ∧ (enable_lower_bandwidth outs).logs = outs.filterMap enableLogOf := by
  induction outs with
  | nil => exact ⟨rfl, rfl, rfl⟩
  | cons p rest ih =>
    obtain ⟨iface, outcome⟩ := p
    have hrest := ih fun q hq e => h q (List.mem_cons_of_mem _ hq) e
    cases outcome with
    | spawnFailed e =>
      exact absurd rfl (h (iface, CmdOutcome.spawnFailed e)
        (List.mem_cons_self _ _) e)
    | exited s =>
      simpa [enable_lower_bandwidth, enableLogOf, List.filterMap_cons]
        using hrest
    | waitFailed err =>
      simpa [enable_lower_bandwidth, enableLogOf, List.filterMap_cons]
        using hrest

lemma disable_no_spawn_run (outs : List (String × CmdOutcome))
    (h : ∀ p ∈ outs, ∀ e, p.2 ≠ CmdOutcome.spawnFailed e) :
    (disable_lowered_bandwidth outs).processed = outs.map Prod.fst
    ∧ (disable_lowered_bandwidth outs).panicked = false
    ∧ (disable_lowered_bandwidth outs).logs = outs.filterMap disableLogOf := by
  induction outs with
  | nil => exact ⟨rfl, rfl, rfl⟩
  | cons p rest ih =>
    obtain ⟨iface, outcome⟩ := p
    have hrest := ih fun q hq e => h q (List.mem_cons_of_mem _ hq) e
    cases outcome with
    | spawnFailed e =>
      exact absurd rfl (h (iface, CmdOutcome.spawnFailed e)
        (List.mem_cons_self _ _) e)
    | exited s =>
      simpa [disable_lowered_bandwidth, disableLogOf, List.filterMap_cons]
        using hrest
    | waitFailed err =>
      simpa [disable_lowered_bandwidth, disableLogOf, List.filterMap_cons]
        using hrest

lemma enable_spawn_panics (pre : List (String × CmdOutcome)) (iface e : String)
    (rest : List (String × CmdOutcome))
    (h : ∀ p ∈ pre, ∀ e2, p.2 ≠ CmdOutcome.spawnFailed e2) :
    (enable_lower_bandwidth
        (pre ++ (iface, CmdOutcome.spawnFailed e) :: rest)).processed
      = pre.map Prod.fst ++ [iface]
    ∧ (enable_lower_bandwidth
        (pre ++ (iface, CmdOutcome.spawnFailed e) :: rest)).panicked = true := by
  induction pre with
  | nil => exact ⟨rfl, rfl⟩
  | cons p pre ih =>
    obtain ⟨i, outcome⟩ := p
    have hpre := ih fun q hq e2 => h q (List.mem_cons_of_mem _ hq) e2
    cases outcome with
    | spawnFailed e2 =>
      exact absurd rfl (h (i, CmdOutcome.spawnFailed e2)
        (List.mem_cons_self _ _) e2)
    | exited s => simpa [enable_lower_bandwidth] using hpre
    | waitFailed err => simpa [enable_lower_bandwidth] using hpre

lemma disable_spawn_panics (pre : List (String × CmdOutcome)) (iface e : String)
    (rest : List (String × CmdOutcome))
    (h : ∀ p ∈ pre, ∀ e2, p.2 ≠ CmdOutcome.spawnFailed e2) :
    (disable_lowered_bandwidth
        (pre ++ (iface, CmdOutcome.spawnFailed e) :: rest)).processed
      = pre.map Prod.fst ++ [iface]
    ∧ (disable_lowered_bandwidth
        (pre ++ (iface, CmdOutcome.spawnFailed e) :: rest)).panicked = true := by
  induction pre with
  | nil => exact ⟨rfl, rfl⟩
  | cons p pre ih =>
    obtain ⟨i, outcome⟩ := p
    have hpre := ih fun q hq e2 => h q (List.mem_cons_of_mem _ hq) e2
    cases outcome with
    | spawnFailed e2 =>
      exact absurd rfl (h (i, CmdOutcome.spawnFailed e2)
        (List.mem_cons_self _ _) e2)
    | exited s => simpa [disable_lowered_bandwidth] using hpre
    | waitFailed err => simpa [disable_lowered_bandwidth] using hpre

lemma appliesInWindow_le_one (c : Config) (m : Meta) (readings : List Nat) :
    appliesInWindow c m readings ≤ 1 := by
  induction readings with
  | nil => simp [appliesInWindow]
  | cons r rs ih =>
    simp only [appliesInWindow]
    split
    · exact le_refl 1
    · exact ih

lemma appliesInWindow_eq_zero (c : Config) (m : Meta) (readings : List Nat)
    (h : ∀ r ∈ readings, dist_of m.starting_bytes r ≤ c.max_bytes) :
    appliesInWindow c m readings = 0 := by
  induction readings with
  | nil => rfl
  | cons r rs ih =>
    have hr : ¬ c.max_bytes < dist_of m.starting_bytes r :=
      Nat.not_lt.mpr (h r (List.mem_cons_self r rs))
    simp only [appliesInWindow, quotaCheckIter]
    rw [if_neg (by simpa using hr)]
    exact ih fun x hx => h x (List.mem_cons_of_mem r hx)

/-! ## Claim theorems -/

/-- C1: In every quota-check iteration, the throttle is applied iff the
clamped `dist` strictly exceeds `max_bytes`; since an applying iteration then
sleeps until `reset_at`, a sequence of readings within one window yields at
most one apply, none when every reading stays at or below the ceiling, and
with `max_bytes = 100`, `starting_bytes = 0`, readings 50, 80, 150 yield
exactly one apply, at 150. -/
theorem quota_apply_iff_breach (c : Config) (m : Meta) (curr : Nat)
    (readings : List Nat) :
    ((quotaCheckIter c m curr).applied = true ↔
      c.max_bytes < dist_of m.starting_bytes curr)
    ∧ appliesInWindow c m readings ≤ 1
    ∧ ((∀ r ∈ readings, dist_of m.starting_bytes r ≤ c.max_bytes) →
        appliesInWindow c m readings = 0)
    ∧ (c.max_bytes = 100 → m.starting_bytes = 0 →
        appliesInWindow c m [50, 80, 150] = 1
        ∧ (quotaCheckIter c m 50).applied = false
        ∧ (quotaCheckIter c m 80).applied = false
        ∧ (quotaCheckIter c m 150).applied = true) := by
  refine ⟨by simp [quotaCheckIter], appliesInWindow_le_one c m readings,
    appliesInWindow_eq_zero c m readings, fun h100 h0 => ?_⟩
  simp [appliesInWindow, quotaCheckIter, dist_of, h100, h0]

/-- C2: When the reset loop fires on a checkpoint with
`starting_bytes ≤ last_saved_bytes` (so the `BigUint` subtraction succeeds)
and the timestamp sum fits a `u64`, `release` runs iff
`last_saved_bytes - starting_bytes > max_bytes` and precedes the persist of
the rebaselined checkpoint, whose `starting_bytes` is the fresh reading and
whose `reset_at_ms` is `now + capture_timeframe_ms`. -/
theorem reset_release_iff_rebaseline (c : Config) (m : Meta) (fresh now : Nat)
    (h : m.starting_bytes ≤ m.last_saved_bytes)
    (hnow : now + c.capture_timeframe_ms < 2 ^ 64) :
    ∃ m' events, resetIter c m fresh now = some (m', events)
      ∧ events = (if c.max_bytes < m.last_saved_bytes - m.starting_bytes
                    then [Event.throttleRelease] else []) ++ [Event.persist m']
      ∧ (Event.throttleRelease ∈ events ↔
          c.max_bytes < m.last_saved_bytes - m.starting_bytes)
      ∧ m'.starting_bytes = fresh
      ∧ m'.reset_at_ms = now + c.capture_timeframe_ms
      ∧ m'.last_saved_bytes = m.last_saved_bytes := by
  have hsub : biguintSub m.last_saved_bytes m.starting_bytes
      = some (m.last_saved_bytes - m.starting_bytes) := if_pos h
  refine ⟨Meta.mk (u64add now c.capture_timeframe_ms) fresh m.last_saved_bytes,
    (if c.max_bytes < m.last_saved_bytes - m.starting_bytes
       then [Event.throttleRelease] else [])
      ++ [Event.persist (Meta.mk (u64add now c.capture_timeframe_ms) fresh
            m.last_saved_bytes)],
    ?_, rfl, ?_, rfl, ?_, rfl⟩
  · unfold resetIter
    rw [hsub]
  · by_cases hc : c.max_bytes < m.last_saved_bytes - m.starting_bytes <;>
      simp [hc]
  · simpa [u64add, U64_MOD] using Nat.mod_eq_of_lt hnow

/-- C2 witness: a window with 200 bytes used against `max_bytes = 100`
releases the throttle and rebaselines to the fresh reading 500 at time
1000 ms. -/
theorem reset_release_witness :
    ∃ m' events,
      resetIter cfgEx (Meta.mk 0 0 200) 500 1000 = some (m', events)
      ∧ events = (if cfgEx.max_bytes < 200 - 0
                    then [Event.throttleRelease] else []) ++ [Event.persist m']
      ∧ (Event.throttleRelease ∈ events ↔ cfgEx.max_bytes < 200 - 0)
      ∧ m'.starting_bytes = 500
      ∧ m'.reset_at_ms = 1000 + cfgEx.capture_timeframe_ms
      ∧ m'.last_saved_bytes = 200 :=
  reset_release_iff_rebaseline cfgEx (Meta.mk 0 0 200)
    500 1000 (by norm_num) (by norm_num [cfgEx, U64_MOD])

/-- C3: the quota-check loop's `dist` equals, as an integer, the difference
`curr - starting_bytes` clamped below at zero — hence it never underflows
and is never negative; it is `curr - starting_bytes` when `curr` exceeds
the baseline, exactly zero otherwise, and the clamped (zero) case never
applies the throttle. -/
theorem quota_dist_clamped (c : Config) (m : Meta) (curr : Nat) :
    ((dist_of m.starting_bytes curr : Int) =
      max 0 ((curr : Int) - (m.starting_bytes : Int)))
    ∧ (m.starting_bytes < curr →
        dist_of m.starting_bytes curr = curr - m.starting_bytes)
    ∧ (curr ≤ m.starting_bytes → dist_of m.starting_bytes curr = 0)
    ∧ (curr ≤ m.starting_bytes →
        (quotaCheckIter c m curr).applied = false) := by
  refine ⟨?_, fun h => by simp [dist_of, h], fun h => ?_, fun h => ?_⟩
  · rcases lt_or_ge m.starting_bytes curr with h | h
    · rw [dist_of, if_pos h, Nat.cast_sub h.le,
        max_eq_right (by omega : (0 : Int) ≤ (curr : Int) - m.starting_bytes)]
    · rw [dist_of, if_neg (by omega),
        max_eq_left (by omega : (curr : Int) - m.starting_bytes ≤ 0)]
      rfl
  · simp [dist_of, Nat.not_lt.mpr h]
  · simp [quotaCheckIter, dist_of, Nat.not_lt.mpr h]

/-- C4: with the checkpoint file absent, `Meta::load` seeds both byte fields
from one fresh reading (here 42), but sets `reset_at_ms` to the constant
`Duration::from_days(7).as_millis()` = 604800000 — an offset from the epoch,
not `now + capture_timeframe` (now = 1760227200000, an October 2025
timestamp, with the default 7-day window), and a timestamp in the past. -/
theorem meta_load_absent_epoch_offset :
    (metaLoadAbsent 42).starting_bytes = 42
    ∧ (metaLoadAbsent 42).last_saved_bytes = 42
    ∧ (metaLoadAbsent 42).reset_at_ms = 604800000
    ∧ (metaLoadAbsent 42).reset_at_ms ≠ 1760227200000 + cfgEx.capture_timeframe_ms
    ∧ (metaLoadAbsent 42).reset_at_ms < 1760227200000 := by
  refine ⟨rfl, rfl, rfl, by decide, by decide⟩

/-- C5: `fetch_outbound_bytes` drops exactly one trailing character instead
of stripping trailing whitespace: on the terminator-free counter string
"123" it returns 12, not the value 123 the spec's stripping reader returns;
on a CRLF-terminated string it fails to parse (the daemon panics) where the
stripping reader returns 123; only the single-LF convention agrees. -/
theorem fetch_drops_fixed_char :
    fetch_outbound_bytes ["123"] = some 12
    ∧ read_total_specModel ["123"] = some 123
    ∧ fetch_outbound_bytes ["123\r\n"] = none
    ∧ read_total_specModel ["123\r\n"] = some 123
    ∧ fetch_outbound_bytes ["123\n"] = some 123 := by
  refine ⟨by decide, by decide, by decide, by decide, by decide⟩

/-- C6: a quota-check iteration persists an out-of-cadence checkpoint with
`last_saved_bytes = curr` (old `reset_at_ms` and `starting_bytes`) exactly
when `dist ≥ save_every_n_bytes`, the comparison being non-strict; below
the threshold no such persist happens. -/
theorem quota_out_of_cadence_persist (c : Config) (m : Meta) (curr : Nat) :
    (c.save_every_n_bytes ≤ dist_of m.starting_bytes curr →
      (quotaCheckIter c m curr).persisted =
        some { reset_at_ms := m.reset_at_ms, starting_bytes := m.starting_bytes,
               last_saved_bytes := curr })
    ∧ (dist_of m.starting_bytes curr < c.save_every_n_bytes →
      (quotaCheckIter c m curr).persisted = none) := by
  constructor
  · intro h
    simp [quotaCheckIter, h]
  · intro h
    simp [quotaCheckIter, Nat.not_le.mpr h]

/-- C7: at startup, a persisted `starting_bytes` exceeding the fresh counter
reading is rebaselined to the fresh reading (other fields untouched) and
stored; otherwise the loaded checkpoint is returned unchanged with no
store. -/
theorem startup_rebaseline (m : Meta) (fresh : Nat) :
    (fresh < m.starting_bytes →
      startupRecover m fresh =
        ({ reset_at_ms := m.reset_at_ms, starting_bytes := fresh,
           last_saved_bytes := m.last_saved_bytes }, true))
    ∧ (m.starting_bytes ≤ fresh → startupRecover m fresh = (m, false)) := by
  constructor
  · intro h
    simp [startupRecover, h]
  · intro h
    simp [startupRecover, Nat.not_lt.mpr h]

/-- C8 counterexample: with two interfaces where the first invocation's
`spawn()` fails, the loop panics — the failure is not logged and the second
interface is never processed; and an invocation that runs but exits with
status 2 (the realistic `tc` failure, e.g. a discipline already installed)
produces no log line in either loop.  Both refute the claim that every
shaping failure is logged and leaves the remaining interfaces processed. -/
theorem shaping_not_isolated_cex :
    (enable_lower_bandwidth
        [("eth0", CmdOutcome.spawnFailed "sudo: command not found"),
         ("eth1", CmdOutcome.exited 0)]).processed = ["eth0"]
    ∧ (enable_lower_bandwidth
        [("eth0", CmdOutcome.spawnFailed "sudo: command not found"),
         ("eth1", CmdOutcome.exited 0)]).panicked = true
    ∧ (enable_lower_bandwidth
        [("eth0", CmdOutcome.spawnFailed "sudo: command not found"),
         ("eth1", CmdOutcome.exited 0)]).logs = []
    ∧ (enable_lower_bandwidth [("eth0", CmdOutcome.exited 2)]).logs = []
    ∧ (disable_lowered_bandwidth
        [("eth0", CmdOutcome.spawnFailed "sudo: command not found"),
         ("eth1", CmdOutcome.exited 0)]).processed = ["eth0"]
    ∧ (disable_lowered_bandwidth [("eth0", CmdOutcome.exited 2)]).logs = [] :=
  ⟨rfl, rfl, rfl, rfl, rfl, rfl⟩

/-- C8 (amended): in both shaping loops, as long as no invocation's
`spawn()` fails, every interface is processed and the loop never aborts,
with exactly the `wait()` I/O failures logged (an invocation that exits
non-zero is silently ignored and processing continues); but the first
`spawn()` failure panics through `.unwrap()`, so only the interfaces up to
and including it are processed and the enclosing loop is terminated. -/
theorem shaping_error_paths (outs : List (String × CmdOutcome)) :
    ((∀ p ∈ outs, ∀ e, p.2 ≠ CmdOutcome.spawnFailed e) →
      (enable_lower_bandwidth outs).processed = outs.map Prod.fst
      ∧ (enable_lower_bandwidth outs).panicked = false
      ∧ (enable_lower_bandwidth outs).logs = outs.filterMap enableLogOf
      ∧ (disable_lowered_bandwidth outs).processed = outs.map Prod.fst
      ∧ (disable_lowered_bandwidth outs).panicked = false
      ∧ (disable_lowered_bandwidth outs).logs = outs.filterMap disableLogOf)
    ∧ (∀ pre iface e rest,
        outs = pre ++ (iface, CmdOutcome.spawnFailed e) :: rest →
        (∀ p ∈ pre, ∀ e2, p.2 ≠ CmdOutcome.spawnFailed e2) →
        (enable_lower_bandwidth outs).processed = pre.map Prod.fst ++ [iface]
        ∧ (enable_lower_bandwidth outs).panicked = true
        ∧ (disable_lowered_bandwidth outs).processed
            = pre.map Prod.fst ++ [iface]
        ∧ (disable_lowered_bandwidth outs).panicked = true) := by
  constructor
  · intro h
    obtain ⟨he1, he2, he3⟩ := enable_no_spawn_run outs h
    obtain ⟨hd1, hd2, hd3⟩ := disable_no_spawn_run outs h
    exact ⟨he1, he2, he3, hd1, hd2, hd3⟩
  · intro pre iface e rest houts hpre
    subst houts
    obtain ⟨he1, he2⟩ := enable_spawn_panics pre iface e rest hpre
    obtain ⟨hd1, hd2⟩ := disable_spawn_panics pre iface e rest hpre
    exact ⟨he1, he2, hd1, hd2⟩

/-- C9: the reset loop's unclamped `BigUint` subtraction makes its body total
exactly when `last_saved_bytes ≥ starting_bytes`; a checkpoint with
`last_saved_bytes = 5 < 10 = starting_bytes` makes the iteration fail
(panic), while the quota-check loop's clamped `dist` at the same numbers is
zero. -/
theorem reset_dist_underflow (c : Config) (m : Meta) (fresh now : Nat) :
    ((resetIter c m fresh now).isSome ↔ m.starting_bytes ≤ m.last_saved_bytes)
    ∧ resetIter cfgEx (Meta.mk 0 10 5) 0 0 = none
    ∧ dist_of 10 5 = 0 := by
  refine ⟨?_, rfl, rfl⟩
  by_cases h : m.starting_bytes ≤ m.last_saved_bytes <;>
    simp [resetIter, biguintSub, h]

/-- C10: the out-of-cadence persist of the quota-check loop writes a fresh
record — `last_saved_bytes` set to the current reading, `starting_bytes`
and `reset_at_ms` copied — while the in-memory checkpoint is left exactly
as it was. -/
theorem quota_persist_frame (c : Config) (m : Meta) (curr : Nat) :
    (quotaCheckIter c m curr).metaAfter = m
    ∧ (∀ p, (quotaCheckIter c m curr).persisted = some p →
        p.last_saved_bytes = curr ∧ p.starting_bytes = m.starting_bytes
        ∧ p.reset_at_ms = m.reset_at_ms) := by
  refine ⟨rfl, fun p hp => ?_⟩
  simp only [quotaCheckIter] at hp
  split at hp
  · cases hp
    exact ⟨rfl, rfl, rfl⟩
  · cases hp

end TrafficTracker
